import Mathlib

/-!
# RustPyVM: a shallow embedding of `src/main.rs`

The source is a single-file bytecode virtual machine (`RustPyVM`). This file
translates its data model and execution engine into Lean and proves the
frozen claims about it.

Modelling conventions, in the order the source forces them:

* Rust `i32` is modelled as `Int` wrapped to 32 bits by `wrap32` at every
  arithmetic operation (the release-build wrapping semantics).
* Rust `f32` is idealised as the exact rationals `ℚ`. Every float the claims
  evaluate is exactly representable in `f32` and every operation on them is
  exact, so the idealisation agrees with the source there; IEEE rounding,
  infinities and NaN are not modelled, and theorems about division therefore
  carry a nonzero-divisor hypothesis.
* Rust `panic!` (including `unwrap` on `None`, out-of-range `Vec` indexing
  and integer-underflow panics) aborts the process; it is modelled by an
  `Except VMError` result. The particular `VMError` constructor classifies
  the panic site following the spec's taxonomy; all of them are fatal.
* `HashMap<Rc<String>, Value>` is modelled as an association list with
  lookup-, insert- and remove- operations matching the `HashMap` contract
  (`insert` replaces, `remove` of an absent key is a no-op).
* The `Vec<Value>` operand stack is a `List Value` whose LAST element is the
  stack top, so the source's index arithmetic (`len - 1`, `len - 3`,
  `insert(len - 3, _)`) transfers literally.
* The dispatch loop `Frame::run` is a `while` loop that can loop forever via
  the jump instructions, so its model takes a fuel parameter; exhausting the
  fuel is the distinguished error `VMError.outOfFuel`.
* `Frame::print` writes to stdout; the write itself is I/O and is not
  modelled, but its state effects (the pop and the pointer advance) are.
-/

namespace RustPyVM

/-- The instruction set, from `enum Instruction` in the source: a closed
tagged variant, each case carrying at most one integer operand. -/
inductive Instruction where
  | LoadConst (arg : Nat)
  | StoreName (arg : Nat)
  | LoadName (arg : Nat)
  | DeleteName (arg : Nat)
  | StoreFast (arg : Nat)
  | LoadFast (arg : Nat)
  | DeleteFast (arg : Nat)
  | StoreGlobal (arg : Nat)
  | LoadGlobal (arg : Nat)
  | DeleteGlobal (arg : Nat)
  | CompareOp (arg : Nat)
  | JumpForward (arg : Nat)
  | PopJumpIfTrue (arg : Nat)
  | PopJumpIfFalse (arg : Nat)
  | JumpIfTrueOrPop (arg : Nat)
  | JumpIfFalseOrPop (arg : Nat)
  | MakeFunction (arg : Nat)
  | CallFunction (arg : Nat)
  | JumpAbsolute (arg : Nat)
  | ReturnValue
  | InplaceAdd
  | InplaceSubtract
  | InplaceMultiply
  | InplaceTrueDivide
  | InplaceFloorDivide
  | BinaryAdd
  | BinarySubtract
  | BinaryMultiply
  | BinaryTrueDivide
  | BinaryFloorDivide
  | Nop
  | PopTop
  | RotTwo
  | RotThree
  | RotFour
  | DupTop
  | DupTopTwo
  | UnaryPositive
  | UnaryNegative
  | Print

/-- The comparison operator codes, from `enum CompareOps`. -/
inductive CompareOps where
  | LessThan
  | LessThanOrEqual
  | Equal
  | NotEqual
  | GreaterThan
  | GreaterThanOrEqual

/-- `impl From<usize> for CompareOps`: codes 0–5; anything else panics
(`Unimplemented cmp_op`), modelled as `none`. -/
def cmpOfNat : Nat → Option CompareOps
  | 0 => some .LessThan
  | 1 => some .LessThanOrEqual
  | 2 => some .Equal
  | 3 => some .NotEqual
  | 4 => some .GreaterThan
  | 5 => some .GreaterThanOrEqual
  | _ => none

/-- The fatal-condition taxonomy (spec §7). Every constructor models a
`panic!` site of the source except `outOfFuel`, which is the artefact of
bounding the dispatch loop by fuel. -/
inductive VMError where
  | stackUnderflow
  | nameError
  | typeMismatch
  | invalidOperand
  | arityMismatch
  | contractViolation
  | outOfFuel
deriving DecidableEq

/-- Rust `i32` two's-complement wrapping of an unbounded integer. -/
def wrap32 (z : Int) : Int := (z + 2 ^ 31) % 2 ^ 32 - 2 ^ 31

/-- `z` is representable as an `i32`. -/
def fits32 (z : Int) : Prop := -2 ^ 31 ≤ z ∧ z < 2 ^ 31

instance (z : Int) : Decidable (fits32 z) := by unfold fits32; infer_instance

/-- Rust `bool as i32`: `false ↦ 0`, `true ↦ 1`. -/
def b2i (b : Bool) : Int := if b then 1 else 0

/-- Truncation of a rational toward zero, the rounding of Rust's
`f32 as i32` cast (`Int.tdiv` is the division that truncates toward zero,
and `q.num / q.den` is `q` in lowest terms). -/
def ratTrunc (q : ℚ) : Int := q.num.tdiv q.den

/-- Rust `f32 as i32`: truncate toward zero, saturating at the `i32`
bounds. (The NaN-to-zero case of the cast has no counterpart in the exact
rational idealisation.) -/
def f32_as_i32 (q : ℚ) : Int := max (-2 ^ 31) (min (2 ^ 31 - 1) (ratTrunc q))

/-- The loop `for _ in 1..second { res += first }` of string repetition:
`k` remaining iterations, accumulator `acc`. -/
def repeatFrom (s acc : String) : Nat → String
  | 0 => acc
  | k + 1 => repeatFrom s (acc ++ s) k

/-- String repetition as the source computes it: start from one copy and
append `second - 1` further copies, so a multiplier of 0 or 1 (or any
negative count: `Int.toNat` clamps exactly as the empty Rust range does)
still yields one copy. -/
def strMul (s : String) (n : Int) : String := repeatFrom s s (n - 1).toNat

mutual

/-- The runtime values, from `enum Value`: `Int(i32)`, `Bool(bool)`,
`Float(f32)`, `Str(String)`, `Nonetype`, `Frame(Frame)`. -/
inductive Value : Type where
  | int (n : Int)
  | bool (b : Bool)
  | float (q : ℚ)
  | str (s : String)
  | nonetype
  | frame (f : Frame)

/-- The execution context, from `struct Frame`: the static program
(`instructions`, `constants`, the two name tables) plus the mutable state
(`stack`, `index`, `globals`, `locals`, `return_value`, `depth`). -/
inductive Frame : Type where
  | mk (instructions : List Instruction) (constants : List Value)
       (co_names : List String) (co_varnames : List String)
       (stack : List Value) (index : Nat)
       (globals : List (String × Value)) (locals : List (String × Value))
       (return_value : Value) (depth : Nat)

end

instance : Inhabited Value := ⟨.nonetype⟩

def Frame.instructions : Frame → List Instruction
  | .mk v _ _ _ _ _ _ _ _ _ => v

def Frame.constants : Frame → List Value
  | .mk _ v _ _ _ _ _ _ _ _ => v

def Frame.co_names : Frame → List String
  | .mk _ _ v _ _ _ _ _ _ _ => v

def Frame.co_varnames : Frame → List String
  | .mk _ _ _ v _ _ _ _ _ _ => v

def Frame.stack : Frame → List Value
  | .mk _ _ _ _ v _ _ _ _ _ => v

def Frame.index : Frame → Nat
  | .mk _ _ _ _ _ v _ _ _ _ => v

def Frame.globals : Frame → List (String × Value)
  | .mk _ _ _ _ _ _ v _ _ _ => v

def Frame.locals : Frame → List (String × Value)
  | .mk _ _ _ _ _ _ _ v _ _ => v

def Frame.return_value : Frame → Value
  | .mk _ _ _ _ _ _ _ _ v _ => v

def Frame.depth : Frame → Nat
  | .mk _ _ _ _ _ _ _ _ _ v => v

/-- Replace the mutable fields of a frame: `stack`, `index`, `globals`,
`locals`, `return_value`. The static program fields are never written by
any handler. -/
def Frame.withState (f : Frame) (stack : List Value) (index : Nat)
    (globals locals : List (String × Value)) (return_value : Value)
    (depth : Nat) : Frame :=
  .mk f.instructions f.constants f.co_names f.co_varnames
      stack index globals locals return_value depth

/-- `f` with a new stack and a new instruction pointer, everything else
unchanged: the shape of most handler results. -/
def Frame.withStackIndex (f : Frame) (stack : List Value) (index : Nat) : Frame :=
  f.withState stack index f.globals f.locals f.return_value f.depth

/-- `HashMap::get` / `HashMap::index`: the value bound to `key`, if any. -/
def alookup : List (String × Value) → String → Option Value
  | [], _ => none
  | (k, v) :: rest, key => if k = key then some v else alookup rest key

/-- `HashMap::remove`: drop every binding of `key`; absent keys are a
no-op, matching the `HashMap` removal contract. -/
def aremove (m : List (String × Value)) (key : String) : List (String × Value) :=
  m.filter (fun p => p.1 ≠ key)

/-- `HashMap::insert`: bind `key` to `v`, replacing any previous binding. -/
def ainsert (m : List (String × Value)) (key : String) (v : Value) :
    List (String × Value) :=
  (key, v) :: aremove m key

/-- `Vec::pop` on the operand stack (top = last element): `none` models the
`unwrap` panic on an empty stack. -/
def popStack (s : List Value) : Option (Value × List Value) :=
  match s.getLast? with
  | none => none
  | some v => some (v, s.dropLast)

/-- `Vec::swap i j` (indices already checked in range by the caller). -/
def listSwap (l : List Value) (i j : Nat) : List Value :=
  match l[i]?, l[j]? with
  | some a, some b => (l.set i b).set j a
  | _, _ => l

/-- `Vec::insert at v`: insert `v` so that it ends up at position `at`,
shifting the suffix up (the caller has checked `at ≤ length`). -/
def listInsertAt : List Value → Nat → Value → List Value
  | l, 0, v => v :: l
  | [], _ + 1, v => [v]
  | x :: xs, n + 1, v => x :: listInsertAt xs n v

/-- `impl Add for Value`. Each arm is the source's, in the source's order;
the or-patterns of the source bind the float (resp. bool) operand as
`first` in both orders, so both orders appear here with the same
right-hand side. The catch-all panic (`Unimplemented 'add' operation`) is
`typeMismatch`. -/
def Value.add : Value → Value → Except VMError Value
  | .int first, .int second => .ok (.int (wrap32 (first + second)))
  | .float first, .float second => .ok (.float (first + second))
  | .bool first, .bool second => .ok (.int (wrap32 (b2i first + b2i second)))
  | .str first, .str second => .ok (.str (first ++ second))
  | .float first, .int second => .ok (.float (first + (second : ℚ)))
  | .int second, .float first => .ok (.float (first + (second : ℚ)))
  | .bool first, .int second => .ok (.int (wrap32 (b2i first + second)))
  | .int second, .bool first => .ok (.int (wrap32 (b2i first + second)))
  | _, _ => .error .typeMismatch

/-- `impl Sub for Value`. Note the mixed-kind or-patterns compute
`first - second` with `first` the float (resp. bool) operand whichever
side it is on, so `Int - Float` yields the float minus the int. -/
def Value.sub : Value → Value → Except VMError Value
  | .int first, .int second => .ok (.int (wrap32 (first - second)))
  | .float first, .float second => .ok (.float (first - second))
  | .bool first, .bool second => .ok (.int (wrap32 (b2i first - b2i second)))
  | .float first, .int second => .ok (.float (first - (second : ℚ)))
  | .int second, .float first => .ok (.float (first - (second : ℚ)))
  | .bool first, .int second => .ok (.int (wrap32 (b2i first - second)))
  | .int second, .bool first => .ok (.int (wrap32 (b2i first - second)))
  | _, _ => .error .typeMismatch

/-- `impl Mul for Value`, including the string-repetition arm in both
operand orders. -/
def Value.mul : Value → Value → Except VMError Value
  | .int first, .int second => .ok (.int (wrap32 (first * second)))
  | .float first, .float second => .ok (.float (first * second))
  | .bool first, .bool second => .ok (.int (wrap32 (b2i first * b2i second)))
  | .str first, .int second => .ok (.str (strMul first second))
  | .int second, .str first => .ok (.str (strMul first second))
  | .float first, .int second => .ok (.float (first * (second : ℚ)))
  | .int second, .float first => .ok (.float (first * (second : ℚ)))
  | .bool first, .int second => .ok (.int (wrap32 (b2i first * second)))
  | .int second, .bool first => .ok (.int (wrap32 (b2i first * second)))
  | _, _ => .error .typeMismatch

/-- `impl Div for Value`: every supported arm produces a `Float`; the
mixed-kind or-patterns again put the float (resp. bool) operand first, so
`Int / Float` computes the float divided by the int. (Division by zero is
`inf`/NaN in `f32` and has no counterpart in the exact idealisation; the
theorems below therefore assume nonzero divisors.) -/
def Value.div : Value → Value → Except VMError Value
  | .int first, .int second => .ok (.float ((first : ℚ) / (second : ℚ)))
  | .float first, .float second => .ok (.float (first / second))
  | .bool first, .bool second => .ok (.float ((b2i first : ℚ) / (b2i second : ℚ)))
  | .float first, .int second => .ok (.float (first / (second : ℚ)))
  | .int second, .float first => .ok (.float (first / (second : ℚ)))
  | .bool first, .int second => .ok (.float ((b2i first : ℚ) / (second : ℚ)))
  | .int second, .bool first => .ok (.float ((b2i first : ℚ) / (second : ℚ)))
  | _, _ => .error .typeMismatch

/-- Three-way comparison on `Int` (Rust's `partial_cmp` on `i32`). -/
def cmpInt (a b : Int) : Ordering :=
  if a < b then .lt else if b < a then .gt else .eq

/-- Three-way comparison on `ℚ` (Rust's `partial_cmp` on `f32`; total here
because the idealisation has no NaN). -/
def cmpRat (a b : ℚ) : Ordering :=
  if a < b then .lt else if b < a then .gt else .eq

/-- Lexicographic three-way comparison on strings (Rust's byte-wise `Ord`
on `String`; byte order and code-point order agree on valid UTF-8). -/
def cmpStr (a b : String) : Ordering :=
  if a < b then .lt else if b < a then .gt else .eq

/-- `impl PartialOrd for Value` (and `PartialEq`, whose arms cover exactly
the same kind pairs): three-way comparison of `self` and `other`. The
mixed-kind or-patterns bind the float (resp. bool) operand as `first` and
compare `first` against `second`, so for `(Int, Float)` and `(Int, Bool)`
operand orders the comparison the source computes is the REVERSED one.
The catch-all panic is `typeMismatch`. -/
def valueCmp : Value → Value → Except VMError Ordering
  | .int first, .int second => .ok (cmpInt first second)
  | .bool first, .bool second => .ok (cmpInt (b2i first) (b2i second))
  | .str first, .str second => .ok (cmpStr first second)
  | .float first, .float second => .ok (cmpRat first second)
  | .float first, .int second => .ok (cmpRat first (second : ℚ))
  | .int second, .float first => .ok (cmpRat first (second : ℚ))
  | .float first, .bool second => .ok (cmpRat first ((b2i second : Int) : ℚ))
  | .bool second, .float first => .ok (cmpRat first ((b2i second : Int) : ℚ))
  | .bool first, .int second => .ok (cmpInt (b2i first) second)
  | .int second, .bool first => .ok (cmpInt (b2i first) second)
  | _, _ => .error .typeMismatch

/-- The Boolean the source pushes for comparison code `op` given the
three-way comparison `ord` of the two operands (`lt`/`le`/`eq`/`ne`/
`gt`/`ge` in terms of `partial_cmp`). -/
def cmpResult : CompareOps → Ordering → Bool
  | .LessThan, .lt => true
  | .LessThan, _ => false
  | .LessThanOrEqual, .lt => true
  | .LessThanOrEqual, .eq => true
  | .LessThanOrEqual, _ => false
  | .Equal, .eq => true
  | .Equal, _ => false
  | .NotEqual, .eq => false
  | .NotEqual, _ => true
  | .GreaterThan, .gt => true
  | .GreaterThan, _ => false
  | .GreaterThanOrEqual, .gt => true
  | .GreaterThanOrEqual, .eq => true
  | .GreaterThanOrEqual, _ => false

/-- `Frame::load_const`: push `constants[arg]`; an out-of-range pool index
is the indexing panic. -/
def Frame.load_const (self : Frame) (arg : Nat) : Except VMError Frame :=
  match self.constants[arg]? with
  | none => .error .invalidOperand
  | some v => .ok (self.withStackIndex (self.stack ++ [v]) (self.index + 1))

/-- `Frame::store_name`: bind `co_names[arg]` to the popped top in
`locals` (the name table is indexed before the pop, as in the source's
argument evaluation order). -/
def Frame.store_name (self : Frame) (arg : Nat) : Except VMError Frame :=
  match self.co_names[arg]? with
  | none => .error .invalidOperand
  | some key =>
    match popStack self.stack with
    | none => .error .stackUnderflow
    | some (v, rest) =>
      .ok (self.withState rest (self.index + 1) self.globals
            (ainsert self.locals key v) self.return_value self.depth)

/-- `Frame::load_name`: push `locals[co_names[arg]]`; the `HashMap` index
panic on an absent key is the NameError. -/
def Frame.load_name (self : Frame) (arg : Nat) : Except VMError Frame :=
  match self.co_names[arg]? with
  | none => .error .invalidOperand
  | some key =>
    match alookup self.locals key with
    | none => .error .nameError
    | some v => .ok (self.withStackIndex (self.stack ++ [v]) (self.index + 1))

/-- `Frame::delete_name`: `locals.remove(co_names[arg])`; removing an
absent key is a no-op. -/
def Frame.delete_name (self : Frame) (arg : Nat) : Except VMError Frame :=
  match self.co_names[arg]? with
  | none => .error .invalidOperand
  | some key =>
    .ok (self.withState self.stack (self.index + 1) self.globals
          (aremove self.locals key) self.return_value self.depth)

/-- `Frame::store_fast`: as `store_name` but keyed by `co_varnames`; the
target mapping is the same `locals`. -/
def Frame.store_fast (self : Frame) (arg : Nat) : Except VMError Frame :=
  match self.co_varnames[arg]? with
  | none => .error .invalidOperand
  | some key =>
    match popStack self.stack with
    | none => .error .stackUnderflow
    | some (v, rest) =>
      .ok (self.withState rest (self.index + 1) self.globals
            (ainsert self.locals key v) self.return_value self.depth)

/-- `Frame::load_fast`: push `locals[co_varnames[arg]]` (the `unwrap` on
`get` of an absent key is the NameError). -/
def Frame.load_fast (self : Frame) (arg : Nat) : Except VMError Frame :=
  match self.co_varnames[arg]? with
  | none => .error .invalidOperand
  | some key =>
    match alookup self.locals key with
    | none => .error .nameError
    | some v => .ok (self.withStackIndex (self.stack ++ [v]) (self.index + 1))

/-- `Frame::delete_fast`: `locals.remove(co_varnames[arg])`. -/
def Frame.delete_fast (self : Frame) (arg : Nat) : Except VMError Frame :=
  match self.co_varnames[arg]? with
  | none => .error .invalidOperand
  | some key =>
    .ok (self.withState self.stack (self.index + 1) self.globals
          (aremove self.locals key) self.return_value self.depth)

/-- `Frame::store_global`: as `store_name` but targeting `globals`. -/
def Frame.store_global (self : Frame) (arg : Nat) : Except VMError Frame :=
  match self.co_names[arg]? with
  | none => .error .invalidOperand
  | some key =>
    match popStack self.stack with
    | none => .error .stackUnderflow
    | some (v, rest) =>
      .ok (self.withState rest (self.index + 1) (ainsert self.globals key v)
            self.locals self.return_value self.depth)

/-- `Frame::load_global`: push `globals[co_names[arg]]`. -/
def Frame.load_global (self : Frame) (arg : Nat) : Except VMError Frame :=
  match self.co_names[arg]? with
  | none => .error .invalidOperand
  | some key =>
    match alookup self.globals key with
    | none => .error .nameError
    | some v => .ok (self.withStackIndex (self.stack ++ [v]) (self.index + 1))

/-- `Frame::delete_global`: `globals.remove(co_names[arg])`. -/
def Frame.delete_global (self : Frame) (arg : Nat) : Except VMError Frame :=
  match self.co_names[arg]? with
  | none => .error .invalidOperand
  | some key =>
    .ok (self.withState self.stack (self.index + 1) (aremove self.globals key)
          self.locals self.return_value self.depth)

/-- `Frame::compare_op`: pop `second_var` then `first_var`, decode the
operator (after the pops, as in the source), three-way compare and push
the Boolean. -/
def Frame.compare_op (self : Frame) (arg : Nat) : Except VMError Frame :=
  match popStack self.stack with
  | none => .error .stackUnderflow
  | some (second_var, s1) =>
    match popStack s1 with
    | none => .error .stackUnderflow
    | some (first_var, s2) =>
      match cmpOfNat arg with
      | none => .error .invalidOperand
      | some op =>
        match valueCmp first_var second_var with
        | .error e => .error e
        | .ok ord =>
          .ok (self.withStackIndex (s2 ++ [.bool (cmpResult op ord)]) (self.index + 1))

/-- `Frame::pop_jump_if_true`: pop; a non-Boolean is the
`Invalid Value passed to compare` panic. -/
def Frame.pop_jump_if_true (self : Frame) (arg : Nat) : Except VMError Frame :=
  match popStack self.stack with
  | none => .error .stackUnderflow
  | some (.bool result, rest) =>
    if result then .ok (self.withStackIndex rest (arg / 2))
    else .ok (self.withStackIndex rest (self.index + 1))
  | some _ => .error .typeMismatch

/-- `Frame::pop_jump_if_false`. -/
def Frame.pop_jump_if_false (self : Frame) (arg : Nat) : Except VMError Frame :=
  match popStack self.stack with
  | none => .error .stackUnderflow
  | some (.bool result, rest) =>
    if result then .ok (self.withStackIndex rest (self.index + 1))
    else .ok (self.withStackIndex rest (arg / 2))
  | some _ => .error .typeMismatch

/-- `Frame::jump_if_true_or_pop`: peek (`last`), jump without popping when
taken, pop when not taken. -/
def Frame.jump_if_true_or_pop (self : Frame) (arg : Nat) : Except VMError Frame :=
  match self.stack.getLast? with
  | none => .error .stackUnderflow
  | some (.bool result) =>
    if result then .ok (self.withStackIndex self.stack (arg / 2))
    else .ok (self.withStackIndex self.stack.dropLast (self.index + 1))
  | some _ => .error .typeMismatch

/-- `Frame::jump_if_false_or_pop`. -/
def Frame.jump_if_false_or_pop (self : Frame) (arg : Nat) : Except VMError Frame :=
  match self.stack.getLast? with
  | none => .error .stackUnderflow
  | some (.bool result) =>
    if result then .ok (self.withStackIndex self.stack.dropLast (self.index + 1))
    else .ok (self.withStackIndex self.stack (arg / 2))
  | some _ => .error .typeMismatch

/-- `Frame::make_function`: a nonzero flag is the `Unimplemented function
flag` panic; then pop the top (which must be a `Str`) and the value
beneath (which must be a `Frame`), and push the bare `Frame`; any other
kind pair is the `Wrong types for TOS and TOS1` panic. -/
def Frame.make_function (self : Frame) (arg : Nat) : Except VMError Frame :=
  if arg ≠ 0 then .error .contractViolation
  else
    match popStack self.stack with
    | none => .error .stackUnderflow
    | some (tos, s1) =>
      match popStack s1 with
      | none => .error .stackUnderflow
      | some (tos1, s2) =>
        match tos, tos1 with
        | .str _, .frame fr => .ok (self.withStackIndex (s2 ++ [.frame fr]) (self.index + 1))
        | _, _ => .error .typeMismatch

/-- The argument-binding loop of `Frame::call_function`:
`for i in 0..arg { frame.locals.insert(co_varnames[len - 1 - i], pop()) }`.
`i` is the next loop index, the recursion counts the remaining
iterations; an `i` beyond the fast-name table is the index panic of the
source (the arity violation). -/
def bindArgsFrom (callee : Frame) (stk : List Value) (i : Nat) :
    Nat → Except VMError (Frame × List Value)
  | 0 => .ok (callee, stk)
  | count + 1 =>
    if h : callee.co_varnames.length ≤ i then .error .arityMismatch
    else
      match popStack stk with
      | none => .error .stackUnderflow
      | some (v, stk') =>
        let key := callee.co_varnames.get ⟨callee.co_varnames.length - 1 - i, by omega⟩
        bindArgsFrom
          (callee.withState callee.stack callee.index callee.globals
            (ainsert callee.locals key v) callee.return_value callee.depth)
          stk' (i + 1) count

/-- The caller-side preparation of `Frame::call_function`, up to but not
including the recursive `frame.run()`: remove the callee `arg` positions
below the top (a non-`Frame` there is the `Wrong type for TOS` panic),
bind the arguments, set the callee's `globals` from the caller's `locals`
when the caller's `depth` is 0 and from the caller's `globals` otherwise,
and apply `frame.depth += self.depth + 1`. Returns the initialised callee
and the caller's remaining stack. -/
def prepareCallee (self : Frame) (arg : Nat) : Except VMError (Frame × List Value) :=
  if self.stack.length < arg + 1 then .error .stackUnderflow
  else
    match self.stack[self.stack.length - arg - 1]? with
    | some (.frame callee) =>
      match bindArgsFrom callee (self.stack.eraseIdx (self.stack.length - arg - 1)) 0 arg with
      | .error e => .error e
      | .ok (callee', stk) =>
        .ok (callee'.withState callee'.stack callee'.index
              (if self.depth = 0 then self.locals else self.globals)
              callee'.locals callee'.return_value (callee'.depth + self.depth + 1), stk)
    | some _ => .error .typeMismatch
    | none => .error .stackUnderflow

/-- `Frame::call_function` with the recursive dispatch abstracted as
`recRun`: prepare the callee, run it, push its `return_value`. -/
def call_function_with (recRun : Frame → Except VMError Frame) (self : Frame)
    (arg : Nat) : Except VMError Frame :=
  match prepareCallee self arg with
  | .error e => .error e
  | .ok (callee, stk) =>
    match recRun callee with
    | .error e => .error e
    | .ok callee' =>
      .ok (self.withStackIndex (stk ++ [callee'.return_value]) (self.index + 1))

/-- `Frame::return_value`: pop into `return_value` and force the pointer
to the terminal state `instructions.len()`. -/
def Frame.return_value_op (self : Frame) : Except VMError Frame :=
  match popStack self.stack with
  | none => .error .stackUnderflow
  | some (v, rest) =>
    .ok (self.withState rest self.instructions.length self.globals self.locals
          v self.depth)

/-- The shared shape of `Frame::add` / `subtract` / `multiply` /
`true_divide`: pop `result`, pop again, apply `op` (popped-second operand
on the left) and push. -/
def Frame.binop (self : Frame) (op : Value → Value → Except VMError Value) :
    Except VMError Frame :=
  match popStack self.stack with
  | none => .error .stackUnderflow
  | some (second, s1) =>
    match popStack s1 with
    | none => .error .stackUnderflow
    | some (first, s2) =>
      match op first second with
      | .error e => .error e
      | .ok v => .ok (self.withStackIndex (s2 ++ [v]) (self.index + 1))

/-- `Frame::add`. -/
def Frame.add (self : Frame) : Except VMError Frame := self.binop Value.add

/-- `Frame::subtract`. -/
def Frame.subtract (self : Frame) : Except VMError Frame := self.binop Value.sub

/-- `Frame::multiply`. -/
def Frame.multiply (self : Frame) : Except VMError Frame := self.binop Value.mul

/-- `Frame::true_divide`. -/
def Frame.true_divide (self : Frame) : Except VMError Frame := self.binop Value.div

/-- `Frame::floor_divide`: divide as `true_divide`, then if the result is
a `Float` truncate it (`as i32`) back into an `Int`; any other result is
pushed unchanged (dead in practice, since every `Div` arm yields
`Float`). -/
def Frame.floor_divide (self : Frame) : Except VMError Frame :=
  match popStack self.stack with
  | none => .error .stackUnderflow
  | some (second, s1) =>
    match popStack s1 with
    | none => .error .stackUnderflow
    | some (first, s2) =>
      match Value.div first second with
      | .error e => .error e
      | .ok (.float q) =>
        .ok (self.withStackIndex (s2 ++ [.int (f32_as_i32 q)]) (self.index + 1))
      | .ok result => .ok (self.withStackIndex (s2 ++ [result]) (self.index + 1))

/-- `Frame::pop_top`: `stack.pop()` without `unwrap` — popping an empty
stack here is a silent no-op. -/
def Frame.pop_top (self : Frame) : Except VMError Frame :=
  .ok (self.withStackIndex self.stack.dropLast (self.index + 1))

/-- `Frame::rot_two`: swap the top two (`len - 1` underflows on a short
stack: the panic). -/
def Frame.rot_two (self : Frame) : Except VMError Frame :=
  if self.stack.length < 2 then .error .stackUnderflow
  else
    let last_pos := self.stack.length - 1
    .ok (self.withStackIndex (listSwap self.stack last_pos (last_pos - 1)) (self.index + 1))

/-- `Frame::rot_three`: two adjacent swaps from the top downward. -/
def Frame.rot_three (self : Frame) : Except VMError Frame :=
  if self.stack.length < 3 then .error .stackUnderflow
  else
    let last_pos := self.stack.length - 1
    let s1 := listSwap self.stack last_pos (last_pos - 1)
    .ok (self.withStackIndex (listSwap s1 (last_pos - 1) (last_pos - 2)) (self.index + 1))

/-- `Frame::rot_four`: three adjacent swaps from the top downward. -/
def Frame.rot_four (self : Frame) : Except VMError Frame :=
  if self.stack.length < 4 then .error .stackUnderflow
  else
    let last_pos := self.stack.length - 1
    let s1 := listSwap self.stack last_pos (last_pos - 1)
    let s2 := listSwap s1 (last_pos - 1) (last_pos - 2)
    .ok (self.withStackIndex (listSwap s2 (last_pos - 2) (last_pos - 3)) (self.index + 1))

/-- `Frame::dup_top`: push a clone of the top. -/
def Frame.dup_top (self : Frame) : Except VMError Frame :=
  match self.stack.getLast? with
  | none => .error .stackUnderflow
  | some v => .ok (self.withStackIndex (self.stack ++ [v]) (self.index + 1))

/-- `Frame::dup_top_two`, step for step:
`stack.push(stack[len - 1])` then
`stack.insert(len - 3, stack[len - 3])`, both `len`s read AFTER the push.
A stack shorter than 2 panics in the second line's index arithmetic. -/
def Frame.dup_top_two (self : Frame) : Except VMError Frame :=
  match self.stack.getLast? with
  | none => .error .stackUnderflow
  | some top =>
    let s1 := self.stack ++ [top]
    if s1.length < 3 then .error .stackUnderflow
    else
      match s1[s1.length - 3]? with
      | none => .error .stackUnderflow
      | some third =>
        .ok (self.withStackIndex (listInsertAt s1 (s1.length - 3) third) (self.index + 1))

/-- `Frame::unary_negative`: push `Value::Int(0) - pop()`. -/
def Frame.unary_negative (self : Frame) : Except VMError Frame :=
  match popStack self.stack with
  | none => .error .stackUnderflow
  | some (v, rest) =>
    match Value.sub (.int 0) v with
    | .error e => .error e
    | .ok negative => .ok (self.withStackIndex (rest ++ [negative]) (self.index + 1))

/-- `Frame::print`: pop one value and render it. The console write is
I/O and is not modelled; the state effects (the pop and the pointer
advance) are. -/
def Frame.print (self : Frame) : Except VMError Frame :=
  match popStack self.stack with
  | none => .error .stackUnderflow
  | some (_, rest) => .ok (self.withStackIndex rest (self.index + 1))

/-- `Frame::create_print_frame`: the built-in `print` callable. -/
def Frame.create_print_frame : Frame :=
  .mk [.LoadFast 0, .Print] [.str "to_print"] [] ["to_print"] [] 0 [] [] .nonetype 0

/-- One iteration of the dispatch `match` in `Frame::run`, with the
recursive dispatch of `CallFunction` abstracted as `recRun`. Each arm is
the source's arm; the `InplaceXxx` and `BinaryXxx` opcodes dispatch to the
same handlers, and the inline arms (`JumpForward`, `JumpAbsolute`, `Nop`,
`UnaryPositive`) are inline here too. -/
def execWith (recRun : Frame → Except VMError Frame) (self : Frame) :
    Instruction → Except VMError Frame
  | .LoadConst arg => self.load_const arg
  | .StoreName arg => self.store_name arg
  | .LoadName arg => self.load_name arg
  | .DeleteName arg => self.delete_name arg
  | .StoreFast arg => self.store_fast arg
  | .LoadFast arg => self.load_fast arg
  | .DeleteFast arg => self.delete_fast arg
  | .StoreGlobal arg => self.store_global arg
  | .LoadGlobal arg => self.load_global arg
  | .DeleteGlobal arg => self.delete_global arg
  | .CompareOp arg => self.compare_op arg
  | .JumpForward arg => .ok (self.withStackIndex self.stack (self.index + arg / 2 + 1))
  | .PopJumpIfTrue arg => self.pop_jump_if_true arg
  | .PopJumpIfFalse arg => self.pop_jump_if_false arg
  | .JumpIfTrueOrPop arg => self.jump_if_true_or_pop arg
  | .JumpIfFalseOrPop arg => self.jump_if_false_or_pop arg
  | .JumpAbsolute arg => .ok (self.withStackIndex self.stack (arg / 2))
  | .MakeFunction arg => self.make_function arg
  | .CallFunction arg => call_function_with recRun self arg
  | .ReturnValue => self.return_value_op
  | .InplaceAdd => self.add
  | .InplaceSubtract => self.subtract
  | .InplaceMultiply => self.multiply
  | .InplaceTrueDivide => self.true_divide
  | .InplaceFloorDivide => self.floor_divide
  | .BinaryAdd => self.add
  | .BinarySubtract => self.subtract
  | .BinaryMultiply => self.multiply
  | .BinaryTrueDivide => self.true_divide
  | .BinaryFloorDivide => self.floor_divide
  | .Nop => .ok (self.withStackIndex self.stack (self.index + 1))
  | .PopTop => self.pop_top
  | .RotTwo => self.rot_two
  | .RotThree => self.rot_three
  | .RotFour => self.rot_four
  | .DupTop => self.dup_top
  | .DupTopTwo => self.dup_top_two
  | .UnaryPositive => .ok (self.withStackIndex self.stack (self.index + 1))
  | .UnaryNegative => self.unary_negative
  | .Print => self.print

/-- `Frame::run`: the fetch-decode-execute loop
`while let Some(instruction) = self.instructions.get(self.index)`,
bounded by fuel (the loop can diverge via the jump instructions; fuel
exhaustion is the model artefact `outOfFuel`). The nested `CallFunction`
dispatch runs on the remaining fuel. -/
def Frame.run (fuel : Nat) : Frame → Except VMError Frame :=
  match fuel with
  | 0 => fun _ => .error .outOfFuel
  | fuel + 1 => fun self =>
    match self.instructions[self.index]? with
    | none => .ok self
    | some instruction =>
      match execWith (Frame.run fuel) self instruction with
      | .error e => .error e
      | .ok self' => Frame.run fuel self'

/-- The dispatcher at a given fuel: the `match *instruction` of
`Frame::run`. -/
def execInstr (fuel : Nat) (self : Frame) (instruction : Instruction) :
    Except VMError Frame :=
  execWith (Frame.run fuel) self instruction

/-- `Frame::call_function` at a given fuel. -/
def Frame.call_function (fuel : Nat) (self : Frame) (arg : Nat) :
    Except VMError Frame :=
  call_function_with (Frame.run fuel) self arg

/-- A frame with an empty program: running it terminates at once with its
default `return_value` of `Nonetype`. Used as a concrete callee. -/
def egInner : Frame := .mk [] [] [] [] [] 0 [] [] .nonetype 0

/-- A frame whose stack is `[1, 2, 3]` with `3` on top. -/
def egStack3 : Frame := .mk [] [] [] [] [.int 1, .int 2, .int 3] 0 [] [] .nonetype 0

/-- A frame whose stack holds a `Str` with a `Frame` above it — the
operand arrangement the spec describes for `MakeFunction`. -/
def egFrameTop : Frame := .mk [] [] [] [] [.str "f", .frame egInner] 0 [] [] .nonetype 0

/-- A frame whose stack holds a `Frame` with a `Str` above it — the
operand arrangement the source actually accepts for `MakeFunction`. -/
def egStrTop : Frame := .mk [] [] [] [] [.frame egInner, .str "f"] 0 [] [] .nonetype 0

/-- A depth-0 caller about to invoke `egInner` with no arguments; its
`locals` and `globals` are distinct one-entry maps so the scope
propagation choice is observable. -/
def egCaller : Frame :=
  .mk [.CallFunction 0] [] [] [] [.frame egInner] 0 [("g", .int 7)] [("x", .int 1)] .nonetype 0

/-- A frame whose `names` entry 0 and `fastNames` entry 0 are the same
identifier `x`, with a single stack operand to store. -/
def egNames : Frame := .mk [] [] ["x"] ["x"] [.int 5] 0 [] [] .nonetype 0

/-- A frame with stack `[Int(-7), Int(2)]`, the floor-division example. -/
def egFloorDiv : Frame := .mk [] [] [] [] [.int (-7), .int 2] 0 [] [] .nonetype 0

theorem popStack_concat (l : List Value) (v : Value) : popStack (l ++ [v]) = some (v, l) := by
  simp [popStack]

theorem popStack_concat2 (l : List Value) (a b : Value) :
    popStack (l ++ [a, b]) = some (b, l ++ [a]) := by
  have h : l ++ [a, b] = (l ++ [a]) ++ [b] := by simp
  rw [h, popStack_concat]

theorem alookup_ainsert (m : List (String × Value)) (k : String) (v : Value) :
    alookup (ainsert m k v) k = some v := by
  simp [ainsert, alookup]

theorem alookup_aremove (m : List (String × Value)) (k : String) :
    alookup (aremove m k) k = none := by
  induction m with
  | nil => rfl
  | cons p rest ih =>
    by_cases h : p.1 = k
    · simpa [aremove, h] using ih
    · simpa [aremove, alookup, h] using ih

theorem aremove_of_alookup_none (m : List (String × Value)) (k : String)
    (h : alookup m k = none) : aremove m k = m := by
  induction m with
  | nil => rfl
  | cons p rest ih =>
    obtain ⟨k1, v1⟩ := p
    rw [alookup] at h
    by_cases hp : k1 = k
    · simp [hp] at h
    · have h2 : alookup rest k = none := by rwa [if_neg hp] at h
      have h3 : aremove ((k1, v1) :: rest) k = (k1, v1) :: aremove rest k := by
        simp [aremove, List.filter_cons, hp]
      rw [h3, ih h2]

theorem aremove_ainsert (m : List (String × Value)) (k : String) (v : Value) :
    aremove (ainsert m k v) k = aremove m k := by
  simp [ainsert, aremove, List.filter_filter]

theorem eraseIdx_concat (l : List Value) (v : Value) :
    (l ++ [v]).eraseIdx l.length = l := by
  induction l with
  | nil => rfl
  | cons x xs ih => simp [List.eraseIdx, ih]

theorem wrap32_eq {z : Int} (h : fits32 z) : wrap32 z = z := by
  unfold wrap32
  unfold fits32 at h
  omega

/-- C1, counterexample: on the stack `[1, 2, 3]` (3 on top) `DupTopTwo`
produces `[1, 2, 2, 3, 3]`, not the `[a, c, b, c]` = `[1, 3, 2, 3]` the
claim states (the claim's result even has the wrong length: the
instruction grows the stack by two). -/
theorem C1_counterexample :
    (Frame.dup_top_two egStack3).map Frame.stack
      = .ok [.int 1, .int 2, .int 2, .int 3, .int 3]
    ∧ (Frame.dup_top_two egStack3).map Frame.stack
      ≠ .ok [.int 1, .int 3, .int 2, .int 3] := by
  refine ⟨rfl, fun h => ?_⟩
  rw [show (Frame.dup_top_two egStack3).map Frame.stack
      = .ok [.int 1, .int 2, .int 2, .int 3, .int 3] from rfl] at h
  have h2 := congrArg List.length (Except.ok.inj h)
  simp at h2

/-- C1, amended: executing `DupTopTwo` on an operand stack `[a, b, c]`
(c on top) produces the stack `[a, b, b, c, c]` — a copy of the top is
pushed, then a copy of the (post-push) third-from-top value `b` is
inserted at its own position — and the instruction pointer advances by
one. -/
theorem C1_dup_top_two (f : Frame) (a b c : Value) (h : f.stack = [a, b, c]) :
    f.dup_top_two = .ok (f.withStackIndex [a, b, b, c, c] (f.index + 1)) := by
  unfold Frame.dup_top_two
  rw [h]
  rfl

theorem C1_witness :
    egStack3.stack = [.int 1, .int 2, .int 3]
    ∧ Frame.dup_top_two egStack3
      = .ok (egStack3.withStackIndex [.int 1, .int 2, .int 2, .int 3, .int 3]
          (egStack3.index + 1)) :=
  ⟨rfl, C1_dup_top_two egStack3 (.int 1) (.int 2) (.int 3) rfl⟩

/-- C2, counterexample: with a `Callable` on top of the stack and a
`String` beneath it — the arrangement the claim says `MakeFunction`
requires — the source panics (`Wrong types for TOS and TOS1`) instead of
pushing the bare callable. -/
theorem C2_counterexample :
    Frame.make_function egFrameTop 0 = .error .typeMismatch
    ∧ Frame.make_function egFrameTop 0 ≠ .ok (egFrameTop.withStackIndex [.frame egInner] 1) := by
  refine ⟨rfl, fun h => ?_⟩
  rw [show Frame.make_function egFrameTop 0 = .error .typeMismatch from rfl] at h
  exact Except.noConfusion h

/-- C2, amended: `MakeFunction` requires the top-of-stack value to be a
String and the value directly beneath it to be a Callable (Frame) — the
opposite orientation to the claim's; it removes both and pushes the bare
Callable; any other arrangement of value kinds is a fatal contract
violation. -/
theorem C2_make_function :
    (∀ (f : Frame) (rest : List Value) (s : String) (g : Frame),
      f.stack = rest ++ [.frame g, .str s] →
      f.make_function 0 = .ok (f.withStackIndex (rest ++ [.frame g]) (f.index + 1)))
    ∧ (∀ (f : Frame) (rest : List Value) (v w : Value),
      f.stack = rest ++ [w, v] →
      ((∀ s, v ≠ .str s) ∨ (∀ g, w ≠ .frame g)) →
      f.make_function 0 = .error .typeMismatch) := by
  constructor
  · intro f rest s g h
    unfold Frame.make_function
    rw [if_neg (show ¬((0 : Nat) ≠ 0) by decide), h]
    simp only [popStack_concat2, popStack_concat]
  · intro f rest v w h hvw
    unfold Frame.make_function
    rw [if_neg (show ¬((0 : Nat) ≠ 0) by decide), h]
    simp only [popStack_concat2, popStack_concat]
    rcases hvw with hv | hw
    · cases v <;> first | rfl | exact absurd rfl (hv _)
    · cases v <;> try rfl
      cases w <;> first | rfl | exact absurd rfl (hw _)

theorem C2_witness :
    (egStrTop.stack = [] ++ [.frame egInner, .str "f"]
      ∧ Frame.make_function egStrTop 0
        = .ok (egStrTop.withStackIndex ([] ++ [.frame egInner]) (egStrTop.index + 1)))
    ∧ (egFrameTop.stack = [] ++ [.str "f", .frame egInner]
      ∧ Frame.make_function egFrameTop 0 = .error .typeMismatch) :=
  ⟨⟨rfl, C2_make_function.1 egStrTop [] "f" egInner rfl⟩,
   ⟨rfl, C2_make_function.2 egFrameTop [] (.frame egInner) (.str "f") rfl
      (Or.inl (fun _ h => Value.noConfusion h))⟩⟩

/-- C3: on every `CallFunction` invocation the callee's `globals` is set
to a copy of the caller's `locals` when the caller's `depth` is 0 and to
a copy of the caller's `globals` otherwise (first conjunct, about the
callee `prepareCallee` hands to the recursive run); and the maps are
copied by value: whatever the callee does during its run, the caller's
own `locals` and `globals` after the call are unchanged (second
conjunct, for any recursive-run function whatsoever). -/
theorem C3_scope_propagation :
    (∀ (self : Frame) (arg : Nat) (callee : Frame) (stk : List Value),
      prepareCallee self arg = .ok (callee, stk) →
      callee.globals = (if self.depth = 0 then self.locals else self.globals))
    ∧ (∀ (r : Frame → Except VMError Frame) (self : Frame) (arg : Nat) (res : Frame),
      call_function_with r self arg = .ok res →
      res.locals = self.locals ∧ res.globals = self.globals) := by
  constructor
  · intro self arg callee stk h
    unfold prepareCallee at h
    split at h
    · simp at h
    · split at h
      · split at h
        · simp at h
        · simp only [Except.ok.injEq, Prod.mk.injEq] at h
          obtain ⟨hc, _⟩ := h
          subst hc
          rfl
      · simp at h
      · simp at h
  · intro r self arg res h
    unfold call_function_with at h
    split at h
    · simp at h
    · split at h
      · simp at h
      · simp only [Except.ok.injEq] at h
        subst h
        exact ⟨rfl, rfl⟩

theorem C3_witness :
    prepareCallee egCaller 0 = .ok (.mk [] [] [] [] [] 0 [("x", .int 1)] [] .nonetype 1, [])
    ∧ (Frame.mk [] [] [] [] [] 0 [("x", .int 1)] [] .nonetype 1).globals
        = (if egCaller.depth = 0 then egCaller.locals else egCaller.globals)
    ∧ (∃ res, Frame.call_function 5 egCaller 0 = .ok res
        ∧ res.locals = egCaller.locals ∧ res.globals = egCaller.globals) :=
  ⟨rfl, C3_scope_propagation.1 egCaller 0 _ [] rfl,
    ⟨.mk [.CallFunction 0] [] [] [] [.nonetype] 1 [("g", .int 7)] [("x", .int 1)] .nonetype 0,
      rfl, C3_scope_propagation.2 (Frame.run 5) egCaller 0 _ rfl⟩⟩

/-- C4, counterexample: the claim fails on three counts. The `Float|Bool`
row of the §3 table does not hold for arithmetic — `Float + Bool` is a
fatal TypeMismatch (only the comparisons support that pair). A pair not
in the table, `(Str, Str)`, succeeds under `+` (concatenation) instead of
failing with TypeMismatch. And a mixed table pair does not produce "the
stated numeric value": `Int(5) - Float(2.0)` yields `Float(-3.0)` — the
source's or-pattern computes float-minus-int whichever side the float is
on. -/
theorem C4_counterexample :
    Value.add (.float 1) (.bool true) = .error .typeMismatch
    ∧ Value.add (.str "a") (.str "b") = .ok (.str "ab")
    ∧ Value.sub (.int 5) (.float 2) = .ok (.float (-3)) := by
  refine ⟨rfl, rfl, ?_⟩
  simp only [Value.sub]
  norm_num

/-- C4, amended: the §3 promotion table holds for the binary arithmetic
operations except in three respects. (i) Every row other than
`Float|Bool` produces the stated result kind and value — Int (wrapped
i32) for Int/Int and Bool/Int with bools widened to 0/1, Float for every
row involving Float and for all true division — except that for the
operand orders `(Int, Float)` and `(Int, Bool)` subtraction and division
compute the reversed operation (float-or-bool minus/over the other
operand). (ii) The `Float|Bool` row holds only for comparisons: all four
arithmetic operations on a Float and a Bool fail with TypeMismatch, in
both orders. (iii) The string operations `Str + Str` and `Str × Int`
succeed although they are outside the numeric table; every remaining
kind pair fails with TypeMismatch. Division clauses assume a nonzero
divisor (`f32` division by zero yields infinities the exact-rational
idealisation does not model), and integer clauses assume the result fits
in `i32`. -/
theorem C4_promotion_table :
    (∀ a b : Int, fits32 (a + b) → Value.add (.int a) (.int b) = .ok (.int (a + b)))
    ∧ (∀ a b : Int, fits32 (a - b) → Value.sub (.int a) (.int b) = .ok (.int (a - b)))
    ∧ (∀ a b : Int, fits32 (a * b) → Value.mul (.int a) (.int b) = .ok (.int (a * b)))
    ∧ (∀ a b : Int, (b : ℚ) ≠ 0 →
        Value.div (.int a) (.int b) = .ok (.float ((a : ℚ) / (b : ℚ))))
    ∧ (∀ p q : ℚ, Value.add (.float p) (.float q) = .ok (.float (p + q)))
    ∧ (∀ p q : ℚ, Value.sub (.float p) (.float q) = .ok (.float (p - q)))
    ∧ (∀ p q : ℚ, Value.mul (.float p) (.float q) = .ok (.float (p * q)))
    ∧ (∀ p q : ℚ, q ≠ 0 → Value.div (.float p) (.float q) = .ok (.float (p / q)))
    ∧ (∀ a b : Bool, Value.add (.bool a) (.bool b) = .ok (.int (b2i a + b2i b)))
    ∧ (∀ a b : Bool, Value.sub (.bool a) (.bool b) = .ok (.int (b2i a - b2i b)))
    ∧ (∀ a b : Bool, Value.mul (.bool a) (.bool b) = .ok (.int (b2i a * b2i b)))
    ∧ (∀ a : Bool, Value.div (.bool a) (.bool true) = .ok (.float ((b2i a : Int) : ℚ)))
    ∧ (∀ (q : ℚ) (n : Int),
        Value.add (.float q) (.int n) = .ok (.float (q + (n : ℚ)))
        ∧ Value.add (.int n) (.float q) = .ok (.float (q + (n : ℚ))))
    ∧ (∀ (q : ℚ) (n : Int),
        Value.sub (.float q) (.int n) = .ok (.float (q - (n : ℚ)))
        ∧ Value.sub (.int n) (.float q) = .ok (.float (q - (n : ℚ))))
    ∧ (∀ (q : ℚ) (n : Int),
        Value.mul (.float q) (.int n) = .ok (.float (q * (n : ℚ)))
        ∧ Value.mul (.int n) (.float q) = .ok (.float (q * (n : ℚ))))
    ∧ (∀ (q : ℚ) (n : Int), (n : ℚ) ≠ 0 →
        Value.div (.float q) (.int n) = .ok (.float (q / (n : ℚ)))
        ∧ Value.div (.int n) (.float q) = .ok (.float (q / (n : ℚ))))
    ∧ (∀ (c : Bool) (n : Int), fits32 (b2i c + n) →
        Value.add (.bool c) (.int n) = .ok (.int (b2i c + n))
        ∧ Value.add (.int n) (.bool c) = .ok (.int (b2i c + n)))
    ∧ (∀ (c : Bool) (n : Int), fits32 (b2i c - n) →
        Value.sub (.bool c) (.int n) = .ok (.int (b2i c - n))
        ∧ Value.sub (.int n) (.bool c) = .ok (.int (b2i c - n)))
    ∧ (∀ (c : Bool) (n : Int), fits32 (b2i c * n) →
        Value.mul (.bool c) (.int n) = .ok (.int (b2i c * n))
        ∧ Value.mul (.int n) (.bool c) = .ok (.int (b2i c * n)))
    ∧ (∀ (c : Bool) (n : Int), (n : ℚ) ≠ 0 →
        Value.div (.bool c) (.int n) = .ok (.float ((b2i c : ℚ) / (n : ℚ)))
        ∧ Value.div (.int n) (.bool c) = .ok (.float ((b2i c : ℚ) / (n : ℚ))))
    ∧ (∀ (q : ℚ) (c : Bool),
        Value.add (.float q) (.bool c) = .error .typeMismatch
        ∧ Value.add (.bool c) (.float q) = .error .typeMismatch
        ∧ Value.sub (.float q) (.bool c) = .error .typeMismatch
        ∧ Value.sub (.bool c) (.float q) = .error .typeMismatch
        ∧ Value.mul (.float q) (.bool c) = .error .typeMismatch
        ∧ Value.mul (.bool c) (.float q) = .error .typeMismatch
        ∧ Value.div (.float q) (.bool c) = .error .typeMismatch
        ∧ Value.div (.bool c) (.float q) = .error .typeMismatch)
    ∧ (∀ s t : String, Value.add (.str s) (.str t) = .ok (.str (s ++ t)))
    ∧ (∀ (s : String) (n : Int),
        Value.mul (.str s) (.int n) = .ok (.str (strMul s n))
        ∧ Value.mul (.int n) (.str s) = .ok (.str (strMul s n)))
    ∧ (∀ v : Value,
        Value.add .nonetype v = .error .typeMismatch
        ∧ Value.add v .nonetype = .error .typeMismatch
        ∧ Value.sub .nonetype v = .error .typeMismatch
        ∧ Value.sub v .nonetype = .error .typeMismatch
        ∧ Value.mul .nonetype v = .error .typeMismatch
        ∧ Value.mul v .nonetype = .error .typeMismatch
        ∧ Value.div .nonetype v = .error .typeMismatch
        ∧ Value.div v .nonetype = .error .typeMismatch)
    ∧ (∀ (v : Value) (g : Frame),
        Value.add (.frame g) v = .error .typeMismatch
        ∧ Value.add v (.frame g) = .error .typeMismatch
        ∧ Value.sub (.frame g) v = .error .typeMismatch
        ∧ Value.sub v (.frame g) = .error .typeMismatch
        ∧ Value.mul (.frame g) v = .error .typeMismatch
        ∧ Value.mul v (.frame g) = .error .typeMismatch
        ∧ Value.div (.frame g) v = .error .typeMismatch
        ∧ Value.div v (.frame g) = .error .typeMismatch)
    ∧ (∀ (s : String) (v : Value), (∀ t, v ≠ .str t) →
        Value.add (.str s) v = .error .typeMismatch
        ∧ Value.add v (.str s) = .error .typeMismatch)
    ∧ (∀ (s : String) (v : Value),
        Value.sub (.str s) v = .error .typeMismatch
        ∧ Value.sub v (.str s) = .error .typeMismatch)
    ∧ (∀ (s : String) (v : Value), (∀ n, v ≠ .int n) →
        Value.mul (.str s) v = .error .typeMismatch
        ∧ Value.mul v (.str s) = .error .typeMismatch)
    ∧ (∀ (s : String) (v : Value),
        Value.div (.str s) v = .error .typeMismatch
        ∧ Value.div v (.str s) = .error .typeMismatch) := by
  refine ⟨?_, ?_, ?_, ?_, ?_, ?_, ?_, ?_, ?_, ?_, ?_, ?_, ?_, ?_, ?_, ?_, ?_, ?_, ?_, ?_,
    ?_, ?_, ?_, ?_, ?_, ?_, ?_, ?_, ?_⟩
  · intro a b h
    simp only [Value.add]
    rw [wrap32_eq h]
  · intro a b h
    simp only [Value.sub]
    rw [wrap32_eq h]
  · intro a b h
    simp only [Value.mul]
    rw [wrap32_eq h]
  · intro a b _
    rfl
  · intro p q
    rfl
  · intro p q
    rfl
  · intro p q
    rfl
  · intro p q _
    rfl
  · intro a b
    simp only [Value.add]
    rw [wrap32_eq (by cases a <;> cases b <;> decide)]
  · intro a b
    simp only [Value.sub]
    rw [wrap32_eq (by cases a <;> cases b <;> decide)]
  · intro a b
    simp only [Value.mul]
    rw [wrap32_eq (by cases a <;> cases b <;> decide)]
  · intro a
    simp only [Value.div]
    norm_num [b2i]
  · intro q n
    exact ⟨rfl, rfl⟩
  · intro q n
    exact ⟨rfl, rfl⟩
  · intro q n
    exact ⟨rfl, rfl⟩
  · intro q n _
    exact ⟨rfl, rfl⟩
  · intro c n h
    constructor <;> (simp only [Value.add]; rw [wrap32_eq h])
  · intro c n h
    constructor <;> (simp only [Value.sub]; rw [wrap32_eq h])
  · intro c n h
    constructor <;> (simp only [Value.mul]; rw [wrap32_eq h])
  · intro c n _
    exact ⟨rfl, rfl⟩
  · intro q c
    exact ⟨rfl, rfl, rfl, rfl, rfl, rfl, rfl, rfl⟩
  · intro s t
    rfl
  · intro s n
    exact ⟨rfl, rfl⟩
  · intro v
    refine ⟨rfl, ?_, rfl, ?_, rfl, ?_, rfl, ?_⟩ <;> cases v <;> rfl
  · intro v g
    refine ⟨rfl, ?_, rfl, ?_, rfl, ?_, rfl, ?_⟩ <;> cases v <;> rfl
  · intro s v hv
    constructor <;> (cases v <;> first | rfl | exact absurd rfl (hv _))
  · intro s v
    exact ⟨by cases v <;> rfl, by cases v <;> rfl⟩
  · intro s v hv
    constructor <;> (cases v <;> first | rfl | exact absurd rfl (hv _))
  · intro s v
    exact ⟨by cases v <;> rfl, by cases v <;> rfl⟩

theorem C4_witness :
    fits32 ((5 : Int) + 3) ∧ Value.add (.int 5) (.int 3) = .ok (.int 8) :=
  ⟨by decide, C4_promotion_table.1 5 3 (by decide)⟩

/-- C5: `JumpAbsolute op` sets the instruction pointer to `op / 2`
(integer division) and `JumpForward op` at pointer `p` sets it to
`p + op / 2 + 1`, neither touching the stack; in particular
`JumpAbsolute 10` sets the pointer to 5 and `JumpForward 4` to `p + 3`. -/
theorem C5_jump_halving :
    (∀ fuel f op, execInstr fuel f (.JumpAbsolute op) = .ok (f.withStackIndex f.stack (op / 2)))
    ∧ (∀ fuel f op, execInstr fuel f (.JumpForward op) =
        .ok (f.withStackIndex f.stack (f.index + op / 2 + 1)))
    ∧ (∀ fuel f, execInstr fuel f (.JumpAbsolute 10) = .ok (f.withStackIndex f.stack 5))
    ∧ (∀ fuel f, execInstr fuel f (.JumpForward 4) = .ok (f.withStackIndex f.stack (f.index + 3))) :=
  ⟨fun _ _ _ => rfl, fun _ _ _ => rfl, fun _ _ => rfl, fun _ _ => rfl⟩

/-- C6: floor division divides exactly as true division does and then
truncates the Float quotient toward zero into an Int; in particular
`Int(-7)` floor-divided by `Int(2)` yields `Int(-3)` (and `7 / 2` yields
`3`), not the `-4` a floor would give. Stated for a nonzero divisor, the
only case the exact-rational idealisation of `f32` covers. -/
theorem C6_floor_divide :
    (∀ (f : Frame) (rest : List Value) (a b : Int), f.stack = rest ++ [.int a, .int b] →
      (b : ℚ) ≠ 0 →
      f.floor_divide = .ok (f.withStackIndex
        (rest ++ [.int (f32_as_i32 ((a : ℚ) / (b : ℚ)))]) (f.index + 1)))
    ∧ f32_as_i32 ((-7 : ℚ) / (2 : ℚ)) = -3
    ∧ f32_as_i32 ((7 : ℚ) / (2 : ℚ)) = 3
    ∧ ((-3 : Int) ≠ -4) := by
  refine ⟨?_, by norm_num [f32_as_i32, ratTrunc]; decide,
    by norm_num [f32_as_i32, ratTrunc]; decide, by decide⟩
  intro f rest a b h hb
  unfold Frame.floor_divide
  rw [h]
  simp only [popStack_concat2, popStack_concat]
  rfl

theorem C6_witness :
    egFloorDiv.stack = [] ++ [.int (-7), .int 2]
    ∧ (((2 : Int) : ℚ) ≠ 0)
    ∧ egFloorDiv.floor_divide = .ok (egFloorDiv.withStackIndex
        ([] ++ [.int (f32_as_i32 (((-7 : Int) : ℚ) / ((2 : Int) : ℚ)))]) (egFloorDiv.index + 1)) :=
  ⟨rfl, by decide, C6_floor_divide.1 egFloorDiv [] (-7) 2 rfl (by decide)⟩

/-- C7: multiplying any string by `Integer 0` or by `Integer 1` (in
either operand order) yields exactly one copy of the string — the
source's repetition loop starts from one copy and appends `n - 1`
further ones, so a multiplier of zero still emits one copy. -/
theorem C7_str_repeat_edge (s : String) :
    Value.mul (.str s) (.int 0) = .ok (.str s)
    ∧ Value.mul (.str s) (.int 1) = .ok (.str s)
    ∧ Value.mul (.int 0) (.str s) = .ok (.str s)
    ∧ Value.mul (.int 1) (.str s) = .ok (.str s) :=
  ⟨rfl, rfl, rfl, rfl⟩

/-- C8: name-table and fast-table store/load/delete target the same
`locals` mapping, differing only in which table supplies the key: when
`names[i]` and `fastNames[j]` are the same identifier the paired
instructions are literally equal as state transformers (first conjunct),
and `StoreName i` of `v` followed by `LoadFast j` pushes `v` back — and
vice versa (remaining conjuncts). -/
theorem C8_shared_locals :
    (∀ (f : Frame) (i j : Nat) (k : String),
      f.co_names[i]? = some k → f.co_varnames[j]? = some k →
      f.store_name i = f.store_fast j
      ∧ f.load_name i = f.load_fast j
      ∧ f.delete_name i = f.delete_fast j)
    ∧ (∀ (f : Frame) (i j : Nat) (k : String) (v : Value) (rest : List Value),
      f.co_names[i]? = some k → f.co_varnames[j]? = some k → f.stack = rest ++ [v] →
      ∃ f1 f2, f.store_name i = .ok f1 ∧ f1.load_fast j = .ok f2 ∧ f2.stack = rest ++ [v])
    ∧ (∀ (f : Frame) (i j : Nat) (k : String) (v : Value) (rest : List Value),
      f.co_names[i]? = some k → f.co_varnames[j]? = some k → f.stack = rest ++ [v] →
      ∃ f1 f2, f.store_fast j = .ok f1 ∧ f1.load_name i = .ok f2 ∧ f2.stack = rest ++ [v]) := by
  refine ⟨fun f i j k hi hj => ⟨?_, ?_, ?_⟩, ?_, ?_⟩
  · unfold Frame.store_name Frame.store_fast
    rw [hi, hj]
  · unfold Frame.load_name Frame.load_fast
    rw [hi, hj]
  · unfold Frame.delete_name Frame.delete_fast
    rw [hi, hj]
  · intro f i j k v rest hi hj h
    obtain ⟨ins, cs, nms, vnms, stk, idx, gl, lo, rv, dep⟩ := f
    simp only [Frame.co_names, Frame.co_varnames, Frame.stack] at hi hj h
    subst h
    refine ⟨.mk ins cs nms vnms rest (idx + 1) gl (ainsert lo k v) rv dep,
      .mk ins cs nms vnms (rest ++ [v]) (idx + 1 + 1) gl (ainsert lo k v) rv dep,
      ?_, ?_, rfl⟩
    · unfold Frame.store_name
      simp only [Frame.co_names, Frame.stack, Frame.withState, Frame.index, Frame.globals,
        Frame.locals, Frame.return_value, Frame.depth, Frame.instructions, Frame.constants,
        Frame.co_varnames, hi, popStack_concat]
    · unfold Frame.load_fast
      simp only [Frame.co_varnames, Frame.stack, Frame.withStackIndex, Frame.withState,
        Frame.index, Frame.globals, Frame.locals, Frame.return_value, Frame.depth,
        Frame.instructions, Frame.constants, Frame.co_names, hj, alookup_ainsert]
  · intro f i j k v rest hi hj h
    obtain ⟨ins, cs, nms, vnms, stk, idx, gl, lo, rv, dep⟩ := f
    simp only [Frame.co_names, Frame.co_varnames, Frame.stack] at hi hj h
    subst h
    refine ⟨.mk ins cs nms vnms rest (idx + 1) gl (ainsert lo k v) rv dep,
      .mk ins cs nms vnms (rest ++ [v]) (idx + 1 + 1) gl (ainsert lo k v) rv dep,
      ?_, ?_, rfl⟩
    · unfold Frame.store_fast
      simp only [Frame.co_varnames, Frame.stack, Frame.withState, Frame.index, Frame.globals,
        Frame.locals, Frame.return_value, Frame.depth, Frame.instructions, Frame.constants,
        Frame.co_names, hj, popStack_concat]
    · unfold Frame.load_name
      simp only [Frame.co_names, Frame.stack, Frame.withStackIndex, Frame.withState,
        Frame.index, Frame.globals, Frame.locals, Frame.return_value, Frame.depth,
        Frame.instructions, Frame.constants, Frame.co_varnames, hi, alookup_ainsert]

theorem C8_witness :
    egNames.co_names[0]? = some "x"
    ∧ egNames.co_varnames[0]? = some "x"
    ∧ egNames.stack = [] ++ [.int 5]
    ∧ (∃ f1 f2, egNames.store_name 0 = .ok f1 ∧ f1.load_fast 0 = .ok f2
        ∧ f2.stack = [] ++ [.int 5]) :=
  ⟨rfl, rfl, rfl, C8_shared_locals.2.1 egNames 0 0 "x" (.int 5) [] rfl rfl rfl⟩

/-- C9: deleting an identifier absent from the targeted mapping is a
no-op — the frame is unchanged apart from the pointer advance (first
conjunct) — while loading an absent identifier fails with NameError
(second conjunct); in particular `StoreName` then `DeleteName` then
`LoadName` on the same identifier fails with NameError (third
conjunct). -/
theorem C9_delete_noop_load_fails :
    (∀ (f : Frame) (i : Nat) (k : String),
      f.co_names[i]? = some k → alookup f.locals k = none →
      f.delete_name i = .ok (f.withStackIndex f.stack (f.index + 1)))
    ∧ (∀ (f : Frame) (i : Nat) (k : String),
      f.co_names[i]? = some k → alookup f.locals k = none →
      f.load_name i = .error .nameError)
    ∧ (∀ (f : Frame) (i : Nat) (k : String) (v : Value) (rest : List Value),
      f.co_names[i]? = some k → f.stack = rest ++ [v] →
      ∃ f1 f2, f.store_name i = .ok f1 ∧ f1.delete_name i = .ok f2
        ∧ f2.load_name i = .error .nameError) := by
  refine ⟨?_, ?_, ?_⟩
  · intro f i k hi hnone
    unfold Frame.delete_name
    simp only [hi]
    rw [aremove_of_alookup_none _ _ hnone]
    rfl
  · intro f i k hi hnone
    unfold Frame.load_name
    simp only [hi, hnone]
  · intro f i k v rest hi h
    obtain ⟨ins, cs, nms, vnms, stk, idx, gl, lo, rv, dep⟩ := f
    simp only [Frame.co_names, Frame.stack] at hi h
    subst h
    refine ⟨.mk ins cs nms vnms rest (idx + 1) gl (ainsert lo k v) rv dep,
      .mk ins cs nms vnms rest (idx + 1 + 1) gl (aremove (ainsert lo k v) k) rv dep,
      ?_, ?_, ?_⟩
    · unfold Frame.store_name
      simp only [Frame.co_names, Frame.stack, Frame.withState, Frame.index, Frame.globals,
        Frame.locals, Frame.return_value, Frame.depth, Frame.instructions, Frame.constants,
        Frame.co_varnames, hi, popStack_concat]
    · unfold Frame.delete_name
      simp only [Frame.co_names, Frame.withState, Frame.stack, Frame.index, Frame.globals,
        Frame.locals, Frame.return_value, Frame.depth, Frame.instructions, Frame.constants,
        Frame.co_varnames, hi]
    · unfold Frame.load_name
      simp only [Frame.co_names, Frame.locals, hi, aremove_ainsert, alookup_aremove]

theorem C9_witness :
    egNames.co_names[0]? = some "x"
    ∧ egNames.stack = [] ++ [.int 5]
    ∧ (∃ f1 f2, egNames.store_name 0 = .ok f1 ∧ f1.delete_name 0 = .ok f2
        ∧ f2.load_name 0 = .error .nameError) :=
  ⟨rfl, rfl, C9_delete_noop_load_fails.2.2 egNames 0 "x" (.int 5) [] rfl rfl⟩

/-- C10: for every frame state and every fuel, the dispatcher sends each
`InplaceXxx` arithmetic instruction to exactly the handler of the
corresponding `BinaryXxx` instruction, so the resulting frame states are
identical. -/
theorem C10_inplace_eq_binary (fuel : Nat) (f : Frame) :
    execInstr fuel f .InplaceAdd = execInstr fuel f .BinaryAdd
    ∧ execInstr fuel f .InplaceSubtract = execInstr fuel f .BinarySubtract
    ∧ execInstr fuel f .InplaceMultiply = execInstr fuel f .BinaryMultiply
    ∧ execInstr fuel f .InplaceTrueDivide = execInstr fuel f .BinaryTrueDivide
    ∧ execInstr fuel f .InplaceFloorDivide = execInstr fuel f .BinaryFloorDivide :=
  ⟨rfl, rfl, rfl, rfl, rfl⟩

end RustPyVM
